import Mathlib

/-!
Shallow embedding of the programs of the repository
"Rust-A-Project-Based-Journey" that the verified claims are about:
the testing lesson's library (lesson 13), the error-handling lesson's
`divide` (lesson 9), the modules lesson's `get_random_number` (lesson 12),
the shared-state concurrency lesson's counter (lesson 19), and the
capstone web API (lesson 22).

Machine integers are embedded as `Int` with explicit two's-complement
wraparound where the Rust type is `i32`/`i64`; `u32` values appear only in
comparisons, so they are embedded as `Nat`.
-/

namespace Journey

/-- Two's-complement wraparound of an unbounded integer into the `i32`
range, i.e. the result of interpreting `x mod 2^32` as a signed 32-bit
value. -/
def wrap32 (x : Int) : Int :=
  (x + 2 ^ 31) % 2 ^ 32 - 2 ^ 31

/-- `x` is representable as an `i32`. -/
def isI32 (x : Int) : Prop :=
  -(2 ^ 31) ≤ x ∧ x < 2 ^ 31

instance (x : Int) : Decidable (isI32 x) := by
  unfold isI32; infer_instance

/-! ## Lesson 13 (`13_Testing/src/lib.rs`) -/

/-- `pub fn add_two(a: i32) -> i32 { a + 2 }` — `i32` addition, which
wraps modulo `2^32` (release semantics of Rust integer overflow). -/
def add_two (a : Int) : Int :=
  wrap32 (a + 2)

/-- `pub struct Rectangle { width: u32, height: u32 }`. -/
structure Rectangle where
  width : Nat
  height : Nat
deriving DecidableEq

/-- `Rectangle::can_hold`: `self.width > other.width && self.height >
other.height`. -/
def Rectangle.can_hold (self other : Rectangle) : Bool :=
  self.width > other.width && self.height > other.height

/-- `pub struct Guess { value: i32 }`. -/
structure Guess where
  value : Int
deriving DecidableEq

/-- `Guess::new`: panics (embedded as `none`) when `value < 1 || value >
100`, otherwise returns `Guess { value }`. -/
def Guess.new (value : Int) : Option Guess :=
  if value < 1 ∨ value > 100 then
    none
  else
    some { value := value }

/-! ## Lesson 9 (`9_ErrorHandling/src/main.rs`)

`divide` branches on `denominator == 0.0` and otherwise returns
`Ok(numerator / denominator)`.  The embedding is parametric in the scalar
type and its division, so the theorem about the branch structure holds for
any value domain standing in for `f64` (the IEEE subtleties of `==` and
`/` live entirely inside the parameters). -/

/-- `fn divide(numerator: f64, denominator: f64) -> Result<f64, String>`. -/
def divide {α : Type} [DecidableEq α] (zero : α) (div : α → α → α)
    (numerator denominator : α) : Except String α :=
  if denominator = zero then
    Except.error "Cannot divide by zero!"
  else
    Except.ok (div numerator denominator)

/-! ## Lesson 12 (`12_ModulesAndCrates/src/lib.rs`)

`get_random_number` calls `rand::thread_rng().gen_range(1..=100)`.  The
`rand` crate is external; its documented contract is that
`gen_range(lo..=hi)` returns a value in `[lo, hi]`.  The generator's
outcome is embedded as an arbitrary natural `r`, and `gen_range` as the
canonical reduction of `r` into the interval. -/

/-- Model of `rand`'s `gen_range(lo..=hi)` at RNG outcome `r`: some value
in `[lo, hi]` determined by `r`. -/
def gen_range (lo hi r : Nat) : Nat :=
  lo + r % (hi - lo + 1)

/-- `pub fn get_random_number() -> u32`, as a function of the RNG
outcome `r`. -/
def get_random_number (r : Nat) : Nat :=
  gen_range 1 100 r

/-! ## Lesson 22 (`22_SimpleWebAPI/src/main.rs`)

The capstone REST API.  The SQLite `users` table is embedded as a
`List User`; the `sqlx` query macros are embedded as pure functions on the
table (`fetch_all`, `fetch_one`, and the `execute` semantics of the
`INSERT`/`UPDATE`/`DELETE` statements).  SQLite's rowid assignment on
`INSERT` is a parameter `rowid` of the create handler (SQLite guarantees
it differs from every existing rowid).  Connection-level failures
(`sqlx::Error` other than `RowNotFound`) are represented by the
`SqlxError.other` constructor so that the error-conversion code paths of
the source are embedded faithfully. -/

/-- The `sqlx::Error` cases the handlers distinguish: `RowNotFound` and
everything else. -/
inductive SqlxError where
  | rowNotFound
  | other (msg : String)
deriving DecidableEq

/-- `enum ApiError { SqlxError(sqlx::Error), NotFound }`. -/
inductive ApiError where
  | sqlxError (e : SqlxError)
  | notFound
deriving DecidableEq

/-- Minimal JSON values, enough for the bodies the API produces. -/
inductive Json where
  | str (s : String)
  | num (n : Int)
  | arr (elems : List Json)
  | obj (fields : List (String × Json))

/-- An HTTP response: a status code and an optional JSON body
(`StatusCode::NO_CONTENT` responses carry no body). -/
structure Response where
  status : Nat
  body : Option Json

/-- `struct User { id: i64, username: String, email: String }`. -/
structure User where
  id : Int
  username : String
  email : String
deriving DecidableEq

/-- serde serialization of `User` (derived `Serialize`, field order as
declared). -/
def User.toJson (u : User) : Json :=
  Json.obj [("id", Json.num u.id), ("username", Json.str u.username),
            ("email", Json.str u.email)]

/-- `struct CreateUserPayload { username: String, email: String }` — the
deserialized request body for create and update. -/
structure CreateUserPayload where
  username : String
  email : String

/-- `impl IntoResponse for ApiError`: a database error becomes a 500 with
body `\x7b"error": "Internal Server Error"\x7d`, a missing row becomes a
404 with body `\x7b"error": "Resource not found"\x7d`. -/
def ApiError.into_response : ApiError → Response
  | ApiError.sqlxError _ =>
      ⟨500, some (Json.obj [("error", Json.str "Internal Server Error")])⟩
  | ApiError.notFound =>
      ⟨404, some (Json.obj [("error", Json.str "Resource not found")])⟩

/-- The response a handler outcome produces: the success response, or the
`IntoResponse` conversion of the `ApiError`. -/
def respond : Except ApiError Response → Response
  | Except.ok r => r
  | Except.error e => e.into_response

/-- As `respond`, for the handlers that also return the updated table. -/
def respondSt : Except ApiError (Response × List User) → Response
  | Except.ok r => r.1
  | Except.error e => e.into_response

/-- `sqlx` `fetch_all` of `SELECT id, username, email FROM users`. -/
def fetch_all (db : List User) : Except SqlxError (List User) :=
  Except.ok db

/-- `sqlx` `fetch_one` of `SELECT ... FROM users WHERE id = ?`:
`RowNotFound` when no row matches. -/
def fetch_one (db : List User) (id : Int) : Except SqlxError User :=
  match db.find? (fun u => u.id == id) with
  | some u => Except.ok u
  | none => Except.error SqlxError.rowNotFound

/-- `execute` of `INSERT INTO users (username, email) VALUES (?, ?)`:
the table gains one row whose id is the SQLite-assigned `rowid` and whose
username and email are the bound values. -/
def insert_execute (db : List User) (rowid : Int) (username email : String) :
    List User :=
  db ++ [⟨rowid, username, email⟩]

/-- `execute` of `UPDATE users SET username = ?, email = ? WHERE id = ?`. -/
def update_execute (db : List User) (id : Int) (username email : String) :
    List User :=
  db.map (fun u =>
    if u.id = id then { u with username := username, email := email } else u)

/-- `execute` of `DELETE FROM users WHERE id = ?`: the remaining table and
the `rows_affected` count. -/
def delete_execute (db : List User) (id : Int) : List User × Nat :=
  (db.filter (fun u => !(u.id == id)), db.countP (fun u => u.id == id))

/-- `get_users_handler`: fetch all users (the `?` operator converts a
failure through `ApiError::from`), reply 200 with their JSON array. -/
def get_users_handler (db : List User) : Except ApiError Response :=
  match (fetch_all db).mapError ApiError.sqlxError with
  | Except.error e => Except.error e
  | Except.ok users => Except.ok ⟨200, some (Json.arr (users.map User.toJson))⟩

/-- `create_user_handler`: run the `INSERT` with the payload's username
and email, read back the row at `last_insert_rowid`, reply
`StatusCode::CREATED` with its JSON. -/
def create_user_handler (db : List User) (rowid : Int)
    (payload : CreateUserPayload) :
    Except ApiError (Response × List User) :=
  let db2 := insert_execute db rowid payload.username payload.email
  let new_user_id := rowid
  match (fetch_one db2 new_user_id).mapError ApiError.sqlxError with
  | Except.error e => Except.error e
  | Except.ok new_user => Except.ok (⟨201, some new_user.toJson⟩, db2)

/-- `get_user_handler`: fetch the row, mapping `RowNotFound` to
`ApiError::NotFound` and any other error through `ApiError::from`; reply
200 with the user's JSON. -/
def get_user_handler (db : List User) (id : Int) : Except ApiError Response :=
  match fetch_one db id with
  | Except.error SqlxError.rowNotFound => Except.error ApiError.notFound
  | Except.error e => Except.error (ApiError.sqlxError e)
  | Except.ok user => Except.ok ⟨200, some user.toJson⟩

/-- `update_user_handler`: existence check (any failure becomes
`NotFound`), then the `UPDATE`, then re-fetch; reply 200 with the updated
user's JSON. -/
def update_user_handler (db : List User) (id : Int)
    (payload : CreateUserPayload) :
    Except ApiError (Response × List User) :=
  match (fetch_one db id).mapError (fun _ => ApiError.notFound) with
  | Except.error e => Except.error e
  | Except.ok _ =>
    let db2 := update_execute db id payload.username payload.email
    match (fetch_one db2 id).mapError ApiError.sqlxError with
    | Except.error e => Except.error e
    | Except.ok updated_user => Except.ok (⟨200, some updated_user.toJson⟩, db2)

/-- `delete_user_handler`: run the `DELETE`; `NotFound` when
`rows_affected == 0`, else `StatusCode::NO_CONTENT`. -/
def delete_user_handler (db : List User) (id : Int) :
    Except ApiError (Response × List User) :=
  let result := delete_execute db id
  if result.2 = 0 then
    Except.error ApiError.notFound
  else
    Except.ok (⟨204, none⟩, result.1)

/-- HTTP methods used by the router. -/
inductive Method where
  | GET
  | POST
  | PUT
  | DELETE
deriving DecidableEq

/-- The router of `main`: `.route("/api/users", get(...).post(...))` and
`.route("/api/users/:id", get(...).put(...).delete(...))`. -/
def appRoutes : List (Method × String) :=
  [(Method.GET, "/api/users"), (Method.POST, "/api/users"),
   (Method.GET, "/api/users/:id"), (Method.PUT, "/api/users/:id"),
   (Method.DELETE, "/api/users/:id")]

/-- The route surface the spec describes (for comparison with
`appRoutes`). -/
def specRoutes : List (Method × String) :=
  [(Method.GET, "/api/users"), (Method.POST, "/api/users"),
   (Method.GET, "/api/users/:id"), (Method.PUT, "/api/users/:id"),
   (Method.DELETE, "/api/users/:id")]

/-- The status codes the spec allows: 200, 201, 204, 404, 500. -/
def allowedStatuses : List Nat :=
  [200, 201, 204, 404, 500]

/-! ## Lesson 19 (`19_SharedStateConcurrency/src/main.rs`)

Ten threads each run `let mut num = counter_clone.lock().unwrap();
*num += 1;`.  The execution is embedded as a small-step interleaving
semantics: each thread performs, as separate atomic actions, an acquire of
the mutex (blocking while it is held), a read of the counter, and a write
of the read value plus one followed by the release at scope end.  A
schedule is the sequence of threads picked by the scheduler; scheduling a
blocked or finished thread changes nothing.  "After joining all ten
threads" is the hypothesis that every thread has finished. -/

/-- Program counter of one spawned thread of lesson 19. -/
inductive ThreadPc where
  | ready
  | acquired
  | readDone (v : Nat)
  | finished
deriving DecidableEq

/-- Global state: the shared counter, the mutex holder, and every
thread's program counter. -/
structure MutexState (n : Nat) where
  counter : Nat
  lock : Option (Fin n)
  pc : Fin n → ThreadPc

/-- One scheduler step giving thread `t` a turn. -/
def mutexStep {n : Nat} (s : MutexState n) (t : Fin n) : MutexState n :=
  match s.pc t with
  | ThreadPc.ready =>
      match s.lock with
      | none =>
          { s with lock := some t, pc := Function.update s.pc t ThreadPc.acquired }
      | some _ => s
  | ThreadPc.acquired =>
      { s with pc := Function.update s.pc t (ThreadPc.readDone s.counter) }
  | ThreadPc.readDone v =>
      { s with counter := v + 1, lock := none,
               pc := Function.update s.pc t ThreadPc.finished }
  | ThreadPc.finished => s

/-- The initial state: `Mutex::new(0)`, no holder, every thread about to
run. -/
def mutexInit (n : Nat) : MutexState n :=
  { counter := 0, lock := none, pc := fun _ => ThreadPc.ready }

/-- Run a whole schedule from the initial state with `n` spawned
threads. -/
def runMutex (n : Nat) (schedule : List (Fin n)) : MutexState n :=
  schedule.foldl mutexStep (mutexInit n)

/-- The number of threads of a state that have finished. -/
def finishedCount {n : Nat} (s : MutexState n) : Nat :=
  (Finset.univ.filter (fun t => s.pc t = ThreadPc.finished)).card

/-- A concrete fair schedule for ten threads: each thread is given three
consecutive turns, enough to acquire, read, and write. -/
def roundSchedule : List (Fin 10) :=
  [0, 0, 0, 1, 1, 1, 2, 2, 2, 3, 3, 3, 4, 4, 4,
   5, 5, 5, 6, 6, 6, 7, 7, 7, 8, 8, 8, 9, 9, 9]

/-- The mutual-exclusion invariant of the lesson-19 run: the counter
equals the number of finished threads; when nobody holds the mutex every
thread is either still to run or finished; when a thread holds it, that
thread has either just acquired or read the current counter value, and
every other thread is still to run or finished. -/
def MutexInv {n : Nat} (s : MutexState n) : Prop :=
  s.counter = finishedCount s ∧
  (s.lock = none →
    ∀ t, s.pc t = ThreadPc.ready ∨ s.pc t = ThreadPc.finished) ∧
  (∀ t0, s.lock = some t0 →
    (s.pc t0 = ThreadPc.acquired ∨
      s.pc t0 = ThreadPc.readDone s.counter) ∧
    ∀ t, t ≠ t0 → (s.pc t = ThreadPc.ready ∨ s.pc t = ThreadPc.finished))

/-!
# Theorems

One theorem per verified claim, with witnesses where a claim's theorem
carries hypotheses.
-/

/-- Updating a thread's program counter to a non-finished value keeps the
finished count. -/
theorem finishedCount_update_stay {n : Nat} (c : Nat) (l : Option (Fin n))
    (pc : Fin n → ThreadPc) (t : Fin n) (v : ThreadPc)
    (hpc : pc t ≠ ThreadPc.finished) (hv : v ≠ ThreadPc.finished) :
    finishedCount (⟨c, l, Function.update pc t v⟩ : MutexState n) =
      finishedCount (⟨c, l, pc⟩ : MutexState n) := by
  unfold finishedCount
  congr 1
  ext t2
  by_cases ht2 : t2 = t
  · subst ht2
    simp [Function.update, hv, hpc]
  · simp [Function.update, ht2]

/-- Finishing a not-yet-finished thread increments the finished count. -/
theorem finishedCount_update_finish {n : Nat} (c : Nat) (l : Option (Fin n))
    (pc : Fin n → ThreadPc) (t : Fin n)
    (hpc : pc t ≠ ThreadPc.finished) :
    finishedCount
        (⟨c, l, Function.update pc t ThreadPc.finished⟩ : MutexState n) =
      finishedCount (⟨c, l, pc⟩ : MutexState n) + 1 := by
  unfold finishedCount
  have hins : (Finset.univ.filter fun t2 =>
      Function.update pc t ThreadPc.finished t2 = ThreadPc.finished) =
      insert t (Finset.univ.filter fun t2 => pc t2 = ThreadPc.finished) := by
    ext t2
    by_cases ht2 : t2 = t
    · subst ht2
      simp [Function.update]
    · simp [Function.update, ht2]
  rw [hins, Finset.card_insert_of_not_mem (by simp [hpc])]

/-- The finished count ignores the counter and the lock holder. -/
theorem finishedCount_mk {n : Nat} (c : Nat) (l : Option (Fin n))
    (pc : Fin n → ThreadPc) (c2 : Nat) (l2 : Option (Fin n)) :
    finishedCount (⟨c, l, pc⟩ : MutexState n) =
      finishedCount (⟨c2, l2, pc⟩ : MutexState n) :=
  rfl

/-- The invariant holds initially. -/
theorem mutexInv_init (n : Nat) : MutexInv (mutexInit n) := by
  refine ⟨?_, fun _ t => Or.inl rfl, fun t0 h => by simp [mutexInit] at h⟩
  simp [mutexInit, finishedCount]

/-- Step equation: a ready thread acquires a free mutex. -/
theorem mutexStep_ready_none {n : Nat} (s : MutexState n) (t : Fin n)
    (h1 : s.pc t = ThreadPc.ready) (h2 : s.lock = none) :
    mutexStep s t =
      { s with lock := some t,
               pc := Function.update s.pc t ThreadPc.acquired } := by
  unfold mutexStep
  rw [h1, h2]

/-- Step equation: a ready thread blocks on a held mutex. -/
theorem mutexStep_ready_some {n : Nat} (s : MutexState n) (t t0 : Fin n)
    (h1 : s.pc t = ThreadPc.ready) (h2 : s.lock = some t0) :
    mutexStep s t = s := by
  unfold mutexStep
  rw [h1, h2]

/-- Step equation: the lock holder reads the counter. -/
theorem mutexStep_acquired {n : Nat} (s : MutexState n) (t : Fin n)
    (h1 : s.pc t = ThreadPc.acquired) :
    mutexStep s t =
      { s with pc := Function.update s.pc t (ThreadPc.readDone s.counter) } := by
  unfold mutexStep
  rw [h1]

/-- Step equation: the lock holder writes the incremented value and
releases. -/
theorem mutexStep_readDone {n : Nat} (s : MutexState n) (t : Fin n)
    (v : Nat) (h1 : s.pc t = ThreadPc.readDone v) :
    mutexStep s t =
      { s with counter := v + 1, lock := none,
               pc := Function.update s.pc t ThreadPc.finished } := by
  unfold mutexStep
  rw [h1]

/-- Step equation: a finished thread does nothing. -/
theorem mutexStep_finished {n : Nat} (s : MutexState n) (t : Fin n)
    (h1 : s.pc t = ThreadPc.finished) :
    mutexStep s t = s := by
  unfold mutexStep
  rw [h1]

/-- The invariant is preserved by every scheduler step. -/
theorem mutexInv_step {n : Nat} (s : MutexState n) (t : Fin n)
    (h : MutexInv s) : MutexInv (mutexStep s t) := by
  obtain ⟨hc, hnone, hsome⟩ := h
  cases hpc : s.pc t with
  | ready =>
    cases hlk : s.lock with
    | none =>
      rw [mutexStep_ready_none s t hpc hlk]
      have hall := hnone hlk
      refine ⟨?_, by simp, fun t0 ht0 => ?_⟩
      · rw [finishedCount_update_stay s.counter (some t) s.pc t
          ThreadPc.acquired (by simp [hpc]) (by simp)]
        exact hc
      · have ht0t : t = t0 := by simpa using ht0
        subst ht0t
        refine ⟨Or.inl (by simp), fun t2 ht2 => ?_⟩
        simpa [Function.update, ht2] using hall t2
    | some t0 =>
      rw [mutexStep_ready_some s t t0 hpc hlk]
      exact ⟨hc, hnone, hsome⟩
  | acquired =>
    cases hlk : s.lock with
    | none =>
      rcases hnone hlk t with h1 | h1 <;> rw [hpc] at h1 <;> simp at h1
    | some t0 =>
      obtain ⟨hh, hrest⟩ := hsome t0 hlk
      have htt0 : t = t0 := by
        by_contra hne
        rcases hrest t hne with h1 | h1 <;> rw [hpc] at h1 <;> simp at h1
      subst htt0
      rw [mutexStep_acquired s t hpc]
      refine ⟨?_, fun h2 => ?_, fun t1 ht1 => ?_⟩
      · rw [finishedCount_update_stay s.counter s.lock s.pc t
          (ThreadPc.readDone s.counter) (by simp [hpc]) (by simp)]
        exact hc
      · simp only [hlk] at h2
        simp at h2
      · have ht1t : t = t1 := by
          simp only [hlk] at ht1
          simpa using ht1
        subst ht1t
        refine ⟨Or.inr (by simp), fun t2 ht2 => ?_⟩
        simpa [Function.update, ht2] using hrest t2 ht2
  | readDone v =>
    cases hlk : s.lock with
    | none =>
      rcases hnone hlk t with h1 | h1 <;> rw [hpc] at h1 <;> simp at h1
    | some t0 =>
      obtain ⟨hh, hrest⟩ := hsome t0 hlk
      have htt0 : t = t0 := by
        by_contra hne
        rcases hrest t hne with h1 | h1 <;> rw [hpc] at h1 <;> simp at h1
      subst htt0
      have hv : v = s.counter := by
        rcases hh with h1 | h1 <;> rw [hpc] at h1
        · simp at h1
        · simpa using h1
      rw [mutexStep_readDone s t v hpc]
      refine ⟨?_, fun _ t2 => ?_, fun t1 ht1 => by simp at ht1⟩
      · rw [finishedCount_update_finish (v + 1) none s.pc t
          (by simp [hpc])]
        have hsame : finishedCount (⟨v + 1, none, s.pc⟩ : MutexState n) =
            finishedCount s := rfl
        rw [hsame, ← hc, hv]
      · by_cases ht2 : t2 = t
        · subst ht2
          exact Or.inr (by simp)
        · simpa [Function.update, ht2] using hrest t2 ht2
  | finished =>
    rw [mutexStep_finished s t hpc]
    exact ⟨hc, hnone, hsome⟩

/-- The invariant is preserved by every whole schedule. -/
theorem mutexInv_fold {n : Nat} (sched : List (Fin n)) (s : MutexState n)
    (h : MutexInv s) : MutexInv (sched.foldl mutexStep s) := by
  induction sched generalizing s with
  | nil => exact h
  | cons t ts ih => exact ih _ (mutexInv_step s t h)

/-- C5: for every interleaving of the ten spawned threads of the
shared-state concurrency lesson, each incrementing the mutex-guarded
counter once, the counter read in the main thread after all ten threads
have been joined equals 10. -/
theorem mutex_counter_after_join (schedule : List (Fin 10))
    (hjoin : ∀ t, (runMutex 10 schedule).pc t = ThreadPc.finished) :
    (runMutex 10 schedule).counter = 10 := by
  have hinv : MutexInv (runMutex 10 schedule) :=
    mutexInv_fold schedule (mutexInit 10) (mutexInv_init 10)
  rw [hinv.1]
  unfold finishedCount
  have huniv : (Finset.univ.filter fun t =>
      (runMutex 10 schedule).pc t = ThreadPc.finished) = Finset.univ := by
    ext t
    simp [hjoin t]
  rw [huniv]
  simp

/-- Witness for C5: a concrete fair schedule finishes all ten threads and
yields a final counter of 10. -/
theorem mutex_counter_after_join_witness :
    (runMutex 10 roundSchedule).counter = 10 :=
  mutex_counter_after_join roundSchedule (by decide)

/-- C1: the capstone API's error type has exactly the two variants
`SqlxError(_)` and `NotFound`; `into_response` maps every database error
to status 500 with JSON body `{"error": "Internal Server Error"}` and a
missing row to status 404 with JSON body `{"error": "Resource not found"}`;
in particular `get_user_handler` turns a missing row into the 404
response. -/
theorem api_error_exactly_two_mappings :
    (∀ err : ApiError,
      (∃ e, err = ApiError.sqlxError e ∧
        err.into_response =
          ⟨500, some (Json.obj [("error", Json.str "Internal Server Error")])⟩) ∨
      (err = ApiError.notFound ∧
        err.into_response =
          ⟨404, some (Json.obj [("error", Json.str "Resource not found")])⟩)) ∧
    (∀ db id, fetch_one db id = Except.error SqlxError.rowNotFound →
      respond (get_user_handler db id) =
        ⟨404, some (Json.obj [("error", Json.str "Resource not found")])⟩) := by
  constructor
  · intro err
    cases err with
    | sqlxError e => exact Or.inl ⟨e, rfl, rfl⟩
    | notFound => exact Or.inr ⟨rfl, rfl⟩
  · intro db id h
    simp [get_user_handler, h, respond, ApiError.into_response]

/-- Witness for C1: the concrete missing-row case on the empty table. -/
theorem api_error_exactly_two_mappings_witness :
    respond (get_user_handler [] 1) =
      ⟨404, some (Json.obj [("error", Json.str "Resource not found")])⟩ :=
  api_error_exactly_two_mappings.2 [] 1 rfl

/-- C2: `delete_user_handler` replies 204 No Content exactly when the
DELETE statement affected at least one row, and fails with the 404
`NotFound` error exactly when it affected zero rows. -/
theorem delete_handler_status_iff (db : List User) (id : Int) :
    (1 ≤ (delete_execute db id).2 ↔
      delete_user_handler db id =
        Except.ok (⟨204, none⟩, (delete_execute db id).1)) ∧
    ((delete_execute db id).2 = 0 ↔
      delete_user_handler db id = Except.error ApiError.notFound) := by
  unfold delete_user_handler
  by_cases h : (delete_execute db id).2 = 0 <;> simp [h]
  omega

/-- C3: `Guess::new(value)` panics exactly when `value < 1 || value > 100`,
and on every value between 1 and 100 inclusive returns a `Guess` storing
exactly the argument. -/
theorem guess_new_panics_iff (value : Int) :
    (Guess.new value = none ↔ value < 1 ∨ value > 100) ∧
    (1 ≤ value → value ≤ 100 → Guess.new value = some ⟨value⟩) := by
  unfold Guess.new
  constructor
  · by_cases h : value < 1 ∨ value > 100 <;> simp [h]
  · intro h1 h2
    have h : ¬(value < 1 ∨ value > 100) := by omega
    simp [h]

/-- Witness for C3: `Guess::new(50)` returns normally storing 50. -/
theorem guess_new_panics_iff_witness : Guess.new 50 = some ⟨50⟩ :=
  (guess_new_panics_iff 50).2 (by decide) (by decide)

/-- C4: for every `i32` input, `add_two` returns `a + 2` in `i32`
arithmetic: the result is an `i32` congruent to `a + 2` modulo `2^32`,
and equals `a + 2` exactly whenever no wraparound occurs. -/
theorem add_two_i32 (a : Int) (h : isI32 a) :
    isI32 (add_two a) ∧ (add_two a - (a + 2)) % 2 ^ 32 = 0 ∧
    (a + 2 < 2 ^ 31 → add_two a = a + 2) := by
  unfold isI32 add_two wrap32 at *
  have h32 : (2 : Int) ^ 32 = 4294967296 := by norm_num
  have h31 : (2 : Int) ^ 31 = 2147483648 := by norm_num
  rw [h32, h31] at *
  omega

/-- Witness for C4: at `i32::MAX` the sum wraps around. -/
theorem add_two_i32_witness :
    isI32 (add_two 2147483647) ∧
      (add_two 2147483647 - (2147483647 + 2)) % 2 ^ 32 = 0 ∧
      ((2147483647 : Int) + 2 < 2 ^ 31 → add_two 2147483647 = 2147483647 + 2) :=
  add_two_i32 2147483647 (by decide)

/-- C8: `Rectangle::can_hold` holds exactly when both dimensions are
strictly larger; hence it is irreflexive and asymmetric, and no rectangle
can hold one of equal dimensions. -/
theorem can_hold_strict_irrefl_asymm :
    (∀ a b : Rectangle, a.can_hold b = true ↔
      b.width < a.width ∧ b.height < a.height) ∧
    (∀ r : Rectangle, r.can_hold r = false) ∧
    (∀ a b : Rectangle, a.can_hold b = true → b.can_hold a = false) := by
  refine ⟨fun a b => ?_, fun r => ?_, fun a b h => ?_⟩
  · simp [Rectangle.can_hold]
  · simp [Rectangle.can_hold]
  · simp [Rectangle.can_hold] at h ⊢
    omega

/-- Witness for C8: a 2×2 rectangle holds a 1×1 one, so the 1×1 cannot
hold the 2×2. -/
theorem can_hold_strict_irrefl_asymm_witness :
    Rectangle.can_hold ⟨1, 1⟩ ⟨2, 2⟩ = false :=
  can_hold_strict_irrefl_asymm.2.2 ⟨2, 2⟩ ⟨1, 1⟩ (by decide)

/-- C9: `divide` returns `Err("Cannot divide by zero!")` exactly when the
denominator equals zero, and otherwise `Ok(numerator / denominator)`; it
is total (never panics), for any scalar domain standing in for `f64`. -/
theorem divide_err_iff_zero {α : Type} [DecidableEq α] (zero : α)
    (div : α → α → α) (numerator denominator : α) :
    (divide zero div numerator denominator =
        Except.error "Cannot divide by zero!" ↔ denominator = zero) ∧
    (denominator ≠ zero →
      divide zero div numerator denominator =
        Except.ok (div numerator denominator)) := by
  unfold divide
  by_cases h : denominator = zero <;> simp [h]

/-- Witness for C9: dividing 6 by 3 over the rationals succeeds. -/
theorem divide_err_iff_zero_witness :
    divide (0 : ℚ) (fun a b => a / b) 6 3 = Except.ok ((6 : ℚ) / 3) :=
  (divide_err_iff_zero 0 (fun a b => a / b) 6 3).2 (by norm_num)

/-- C6: the router exposes exactly the five spec routes and no others,
over the single `users(id, username, email)` table, and every status a
handler response can carry is one of 200, 201, 204, 404, 500. -/
theorem router_five_routes_and_statuses :
    (appRoutes.length = 5 ∧ appRoutes.Nodup ∧
      ∀ r : Method × String, r ∈ appRoutes ↔ r ∈ specRoutes) ∧
    (∀ db, (respond (get_users_handler db)).status ∈ allowedStatuses) ∧
    (∀ db rowid payload,
      (respondSt (create_user_handler db rowid payload)).status ∈
        allowedStatuses) ∧
    (∀ db id, (respond (get_user_handler db id)).status ∈ allowedStatuses) ∧
    (∀ db id payload,
      (respondSt (update_user_handler db id payload)).status ∈
        allowedStatuses) ∧
    (∀ db id,
      (respondSt (delete_user_handler db id)).status ∈ allowedStatuses) := by
  refine ⟨⟨by decide, by decide, fun r => Iff.rfl⟩, ?_, ?_, ?_, ?_, ?_⟩
  · intro db
    simp [get_users_handler, fetch_all, Except.mapError, respond,
      allowedStatuses]
  · intro db rowid payload
    cases hf : fetch_one (insert_execute db rowid payload.username
        payload.email) rowid with
    | ok u =>
        simp [create_user_handler, hf, Except.mapError, respondSt,
          allowedStatuses]
    | error e =>
        simp [create_user_handler, hf, Except.mapError, respondSt,
          ApiError.into_response, allowedStatuses]
  · intro db id
    cases hf : fetch_one db id with
    | ok u => simp [get_user_handler, hf, respond, allowedStatuses]
    | error e =>
        cases e <;>
          simp [get_user_handler, hf, respond, ApiError.into_response,
            allowedStatuses]
  · intro db id payload
    cases hf : fetch_one db id with
    | error e =>
        simp [update_user_handler, hf, Except.mapError, respondSt,
          ApiError.into_response, allowedStatuses]
    | ok u =>
        cases hf2 : fetch_one (update_execute db id payload.username
            payload.email) id with
        | ok v =>
            simp [update_user_handler, hf, hf2, Except.mapError, respondSt,
              allowedStatuses]
        | error e =>
            simp [update_user_handler, hf, hf2, Except.mapError, respondSt,
              ApiError.into_response, allowedStatuses]
  · intro db id
    by_cases h : (delete_execute db id).2 = 0 <;>
      simp [delete_user_handler, h, respondSt, ApiError.into_response,
        allowedStatuses]

/-- C7: for every payload, the create handler issues the `INSERT` with the
payload's username and email unchanged (no validation rejects any string),
and on success replies 201 with the JSON of the newly inserted row, whose
id is the rowid the database assigned to that insert. -/
theorem create_user_passthrough (db : List User) (rowid : Int)
    (payload : CreateUserPayload) (hfresh : ∀ u ∈ db, u.id ≠ rowid) :
    create_user_handler db rowid payload =
      Except.ok
        (⟨201, some (User.toJson ⟨rowid, payload.username, payload.email⟩)⟩,
         db ++ [⟨rowid, payload.username, payload.email⟩]) := by
  have hnone : db.find? (fun u => u.id == rowid) = none := by
    rw [List.find?_eq_none]
    intro u hu
    simp [hfresh u hu]
  have hf : fetch_one (db ++ [⟨rowid, payload.username, payload.email⟩])
      rowid = Except.ok ⟨rowid, payload.username, payload.email⟩ := by
    unfold fetch_one
    rw [List.find?_append, hnone]
    simp
  simp [create_user_handler, insert_execute, hf, Except.mapError]

/-- Witness for C7: creating a user on the empty table with rowid 1. -/
theorem create_user_passthrough_witness :
    create_user_handler [] 1 ⟨"alice", "alice@example.com"⟩ =
      Except.ok
        (⟨201, some (User.toJson ⟨1, "alice", "alice@example.com"⟩)⟩,
         [] ++ [⟨1, "alice", "alice@example.com"⟩]) :=
  create_user_passthrough [] 1 ⟨"alice", "alice@example.com"⟩ (by simp)

/-- C10: `get_random_number` returns a value between 1 and 100 inclusive
for every outcome of the random number generator. -/
theorem get_random_number_range (r : Nat) :
    1 ≤ get_random_number r ∧ get_random_number r ≤ 100 := by
  unfold get_random_number gen_range
  omega

end Journey
